import Mathlib

/-!
Shallow embedding of src/src/openvpn/dco_win.c, the Windows data-channel
offload (DCO) control-plane adapter of OpenVPN.  Driver interactions
(DeviceIoControl, dco_get_overlapped_result, get_signal) are represented by
explicit response environments passed to each modelled function, and every
modelled function returns a record describing the observable effects of the
corresponding C function: driver requests issued, handle bookkeeping, log
severity, poll iterations performed and the final value stored through the
signal_received pointer.
-/

namespace DcoWin

/-- Windows error code WAIT_TIMEOUT (258), a transient wait outcome. -/
def WAIT_TIMEOUT : Nat := 258

/-- Windows error code ERROR_IO_INCOMPLETE (996), a transient wait outcome. -/
def ERROR_IO_INCOMPLETE : Nat := 996

/-- Windows error code ERROR_IO_PENDING (997), reported by DeviceIoControl
when an overlapped request was accepted and is still in flight. -/
def ERROR_IO_PENDING : Nat := 997

/-- Signal number OpenVPN uses for SIGUSR1 on Windows. -/
def SIGUSR1 : Int := 10

/-- The fixed poll quantum in milliseconds, poll_interval_ms in
dco_connect_wait. -/
def poll_interval_ms : Nat := 50

/-- Winsock address family AF_INET. -/
def AF_INET : Nat := 2

/-- Winsock address family AF_INET6 on Windows. -/
def AF_INET6 : Nat := 23

/-- Protocol number IPPROTO_TCP. -/
def IPPROTO_TCP : Nat := 6

/-- Socket type SOCK_STREAM. -/
def SOCK_STREAM : Nat := 1

/-- Modelled from the spec: the driver header defining the OVPN_PROTO
transport enum is not under src; the spec describes transport as an enum
over TCP and UDP, so two distinct codes are used. -/
def OVPN_PROTO_TCP : Nat := 1

/-- Modelled from the spec: see OVPN_PROTO_TCP. -/
def OVPN_PROTO_UDP : Nat := 2

/-- A resolved socket address: the view dco_win.c takes of struct sockaddr,
namely sa_family plus the fields read through the SOCKADDR_IN and
SOCKADDR_IN6 casts (port, address, and for IPv6 flowinfo and scope). -/
structure SockAddr where
  sa_family : Nat
  port : Nat
  addr : Nat
  flowinfo : Nat
  scope_id : Nat
  deriving DecidableEq, Repr

/-- One node of the addrinfo list consumed by dco_create_socket; the
ai_next chain is modelled as a Lean list. -/
structure Addrinfo where
  ai_family : Nat
  ai_socktype : Nat
  ai_protocol : Nat
  ai_addr : SockAddr
  deriving DecidableEq, Repr

/-- The IPv4 leg of the peer descriptor address union (SOCKADDR_IN view).
All fields default to zero, matching the zero initialization of the
enclosing descriptor. -/
structure OvpnAddrIn where
  sin_family : Nat := 0
  sin_port : Nat := 0
  sin_addr : Nat := 0
  deriving DecidableEq, Repr

/-- The IPv6 leg of the peer descriptor address union (SOCKADDR_IN6 view).
All fields default to zero. -/
structure OvpnAddrIn6 where
  sin6_family : Nat := 0
  sin6_port : Nat := 0
  sin6_flowinfo : Nat := 0
  sin6_addr : Nat := 0
  sin6_scope_id : Nat := 0
  deriving DecidableEq, Repr

/-- Modelled from the spec: the driver header defining OVPN_NEW_PEER is not
under src.  The spec describes the descriptor as holding a transport enum
and local plus remote endpoints as a tagged union over IPv4 and IPv6 of
which only one variant is ever populated; the two variants of each union
are therefore modelled as disjoint fields, all zero-initialized as by the
aggregate initializer in dco_create_socket. -/
structure OVPN_NEW_PEER where
  Proto : Nat := 0
  RemoteAddr4 : OvpnAddrIn := {}
  RemoteAddr6 : OvpnAddrIn6 := {}
  LocalAddr4 : OvpnAddrIn := {}
  LocalAddr6 : OvpnAddrIn6 := {}
  deriving DecidableEq, Repr

/-- Reading a generic sockaddr through the SOCKADDR_IN cast. -/
def toAddrIn (s : SockAddr) : OvpnAddrIn :=
  { sin_family := s.sa_family, sin_port := s.port, sin_addr := s.addr }

/-- Reading a generic sockaddr through the SOCKADDR_IN6 cast. -/
def toAddrIn6 (s : SockAddr) : OvpnAddrIn6 :=
  { sin6_family := s.sa_family, sin6_port := s.port, sin6_flowinfo := s.flowinfo,
    sin6_addr := s.addr, sin6_scope_id := s.scope_id }

/-- Which return statement of dco_connect_wait fired: success (return 0),
a driver error reported by the wait, a cancellation observed through
get_signal, or exhaustion of the timeout budget. -/
inductive ConnectOutcome
  | success
  | errDriver (code : Nat)
  | errCancelled
  | errTimeout
  deriving DecidableEq, Repr

/-- Observable result of dco_connect_wait: the outcome, the number of
dco_get_overlapped_result waits performed, and the final value stored
through the signal_received pointer. -/
structure WaitResult where
  outcome : ConnectOutcome
  iters : Nat
  flag : Int
  deriving DecidableEq, Repr

/-- Driver and signal environment for one connect attempt.  For poll
iteration j: result j tells whether dco_get_overlapped_result reports
completion, err j is the GetLastError value when it does not, and sig j is
the process-wide signal value that get_signal stores into signal_received
on that iteration (0 when no signal is pending). -/
structure WaitEnv where
  result : Nat → Bool
  err : Nat → Nat
  sig : Nat → Int

/-- The poll loop of dco_connect_wait (dco_win.c lines 93 to 122).  The C
loop keeps a DWORD budget timeout_msec, decremented by poll_interval_ms
(50) at the top of each pass while it is positive; every reachable budget
is a multiple of 50 (it starts as timeout * 1000), so the loop executes
exactly budget / 50 passes when nothing stops it early, and the recursion
here is on that remaining pass count, with i the absolute index of the
current pass.  Within a pass, in source order: the overlapped result is
polled with a 50 ms bound (success returns 0); a GetLastError value other
than WAIT_TIMEOUT and ERROR_IO_INCOMPLETE logs a non-fatal message, stores
SIGUSR1 through signal_received and returns -1; otherwise get_signal
refreshes the flag and a nonzero flag returns -1; otherwise
management_sleep(0) yields and the loop continues.  Exhausting the budget
stores SIGUSR1 and returns -1. -/
def connect_wait_loop (env : WaitEnv) : Int → Nat → Nat → WaitResult
  | _, i, 0 => { outcome := .errTimeout, iters := i, flag := SIGUSR1 }
  | flag, i, n + 1 =>
    if env.result i then
      { outcome := .success, iters := i + 1, flag := flag }
    else if env.err i = WAIT_TIMEOUT ∨ env.err i = ERROR_IO_INCOMPLETE then
      if env.sig i ≠ 0 then
        { outcome := .errCancelled, iters := i + 1, flag := env.sig i }
      else
        connect_wait_loop env 0 (i + 1) n
    else
      { outcome := .errDriver (env.err i), iters := i + 1, flag := SIGUSR1 }

/-- dco_connect_wait (dco_win.c lines 87 to 129).  The timeout argument is
whole seconds, converted to a DWORD millisecond budget (the conversion to
the unsigned 32-bit DWORD is the reduction modulo 2 ^ 32); the loop then
runs budget / 50 passes at most, see connect_wait_loop. -/
def dco_connect_wait (env : WaitEnv) (flag0 : Int) (timeout : Nat) : WaitResult :=
  connect_wait_loop env flag0 0 (timeout * 1000 % 4294967296 / poll_interval_ms)

/-- The local-candidate scan of dco_create_socket (lines 156 to 163): walk
the bind list and take the address of the first node whose ai_family
equals the remote family. -/
def find_local : List Addrinfo → Nat → Option SockAddr
  | [], _ => none
  | a :: rest, fam => if a.ai_family = fam then some a.ai_addr else find_local rest fam

/-- The fatal paths of dco_create_socket: the M_FATAL bind failure naming
the missing address family, the ASSERT(0) on an address family that is
neither AF_INET nor AF_INET6, and the M_ERR abort when the NEW_PEER
submission fails synchronously with a code other than ERROR_IO_PENDING. -/
inductive FatalKind
  | bindNoFamily (family : Nat)
  | assertBadFamily
  | newPeerSyncFail (code : Nat)
  deriving DecidableEq, Repr

/-- Descriptor construction of dco_create_socket (lines 138 to 203):
transport classification, local candidate selection, the fatal bind check,
and the per-family population of the zero-initialized OVPN_NEW_PEER,
synthesizing a wildcard local endpoint (any address, port 0, remote
family) when no bind was requested. -/
def build_peer (remoteaddr : Addrinfo) (bind_local : Bool) (bind : List Addrinfo) :
    Except FatalKind OVPN_NEW_PEER :=
  let remote := remoteaddr.ai_addr
  let proto :=
    if remoteaddr.ai_protocol = IPPROTO_TCP ∨ remoteaddr.ai_socktype = SOCK_STREAM then
      OVPN_PROTO_TCP
    else
      OVPN_PROTO_UDP
  let localAddr : Option SockAddr :=
    if bind_local then find_local bind remote.sa_family else none
  if bind_local ∧ localAddr = none then
    .error (.bindNoFamily remote.sa_family)
  else if remote.sa_family = AF_INET6 then
    .ok { Proto := proto
          RemoteAddr6 := toAddrIn6 remote
          LocalAddr6 :=
            match localAddr with
            | some l => toAddrIn6 l
            | none => { sin6_addr := 0, sin6_port := 0, sin6_family := AF_INET6 } }
  else if remote.sa_family = AF_INET then
    .ok { Proto := proto
          RemoteAddr4 := toAddrIn remote
          LocalAddr4 :=
            match localAddr with
            | some l => toAddrIn l
            | none => { sin_addr := 0, sin_port := 0, sin_family := AF_INET } }
  else
    .error .assertBadFamily

/-- Observable result of dco_create_socket: the fatal path taken if any,
the peer descriptor that was built, whether the device handle was created
(create_dco_handle) and whether the NEW_PEER ioctl was issued, how many
times close_tun_handle ran, whether the wait loop was entered and with
which outcome and iteration count, the final signal_received value, and
whether the returned tuntap still carries an open handle. -/
structure CreateSocketResult where
  fatal : Option FatalKind
  peer : Option OVPN_NEW_PEER
  handleCreated : Bool
  newPeerCalled : Bool
  closeCount : Nat
  waitEntered : Bool
  outcome : Option ConnectOutcome
  iterations : Nat
  finalSignal : Int
  handleReturnedOpen : Bool
  deriving DecidableEq, Repr

/-- dco_create_socket (dco_win.c lines 131 to 224).  After descriptor
construction the handle is created and the NEW_PEER ioctl is issued; the
synchronous DeviceIoControl response is modelled by syncOk and, when it
fails, the GetLastError value syncErr.  A synchronous success returns the
open handle at once; a failure code other than ERROR_IO_PENDING aborts
through msg(M_ERR) without touching the handle again; ERROR_IO_PENDING
enters dco_connect_wait and, whenever that wait does not return 0, the
handle is closed exactly there (lines 217 to 221). -/
def dco_create_socket (remoteaddr : Addrinfo) (bind_local : Bool) (bind : List Addrinfo)
    (timeout : Nat) (flag0 : Int) (syncOk : Bool) (syncErr : Nat) (env : WaitEnv) :
    CreateSocketResult :=
  match build_peer remoteaddr bind_local bind with
  | .error k =>
    { fatal := some k, peer := none, handleCreated := false, newPeerCalled := false,
      closeCount := 0, waitEntered := false, outcome := none, iterations := 0,
      finalSignal := flag0, handleReturnedOpen := false }
  | .ok p =>
    if syncOk then
      { fatal := none, peer := some p, handleCreated := true, newPeerCalled := true,
        closeCount := 0, waitEntered := false, outcome := none, iterations := 0,
        finalSignal := flag0, handleReturnedOpen := true }
    else if syncErr = ERROR_IO_PENDING then
      let r := dco_connect_wait env flag0 timeout
      if r.outcome = .success then
        { fatal := none, peer := some p, handleCreated := true, newPeerCalled := true,
          closeCount := 0, waitEntered := true, outcome := some r.outcome,
          iterations := r.iters, finalSignal := r.flag, handleReturnedOpen := true }
      else
        { fatal := none, peer := some p, handleCreated := true, newPeerCalled := true,
          closeCount := 1, waitEntered := true, outcome := some r.outcome,
          iterations := r.iters, finalSignal := r.flag, handleReturnedOpen := false }
    else
      { fatal := some (.newPeerSyncFail syncErr), peer := some p, handleCreated := true,
        newPeerCalled := true, closeCount := 0, waitEntered := false, outcome := none,
        iterations := 0, finalSignal := flag0, handleReturnedOpen := false }

/-- Modelled from the spec: cipher metadata lookup (cipher_kt_key_size,
declared in crypto.h, implementation not under src).  The spec fixes the
AES-256-GCM key at 32 bytes and describes the required key length as
driven by the negotiated cipher; the usual AEAD cipher sizes are used and
an unrecognized name maps to 0. -/
def cipher_kt_key_size : String → Nat
  | "AES-128-GCM" => 16
  | "AES-192-GCM" => 24
  | "AES-256-GCM" => 32
  | "CHACHA20-POLY1305" => 32
  | _ => 0

/-- Modelled from the spec: dco_get_cipher (declared in dco.h,
implementation not under src) maps a recognized cipher name to a positive
driver cipher code and a non-positive value otherwise; the spec only
relies on the sign, which the ASSERT in dco_new_key checks. -/
def dco_get_cipher (ciphername : String) : Int :=
  if cipher_kt_key_size ciphername = 0 then -1 else 2

/-- The fixed nonce-tail length used by dco_new_key. -/
def nonce_len : Nat := 8

/-- One direction of the key-slot descriptor.  The fixed-capacity Key and
NonceTail arrays are modelled as byte contents indexed by offset. -/
structure KeyDirection where
  Key : Nat → Nat
  KeyLen : Nat
  NonceTail : Nat → Nat

/-- Modelled from the spec: the driver header defining OVPN_CRYPTO_DATA is
not under src; following the spec it holds cipher code, key id, peer id,
slot selector and per-direction key bytes, key length and 8-byte nonce
tail. -/
structure OVPN_CRYPTO_DATA where
  CipherAlg : Int
  KeyId : Int
  PeerId : Nat
  KeySlot : Nat
  Encrypt : KeyDirection
  Decrypt : KeyDirection

/-- A key direction with every byte and field zero, as left by ZeroMemory. -/
def zeroKeyDirection : KeyDirection :=
  { Key := fun _ => 0, KeyLen := 0, NonceTail := fun _ => 0 }

/-- The ZeroMemory state of the key-slot descriptor in dco_new_key. -/
def zeroCryptoData : OVPN_CRYPTO_DATA :=
  { CipherAlg := 0, KeyId := 0, PeerId := 0, KeySlot := 0,
    Encrypt := zeroKeyDirection, Decrypt := zeroKeyDirection }

/-- CopyMemory(dst, src, len): bytes at offsets below len come from the
source pointer, the rest of the destination is left as it was. -/
def copyMemory (dst src : Nat → Nat) (len : Nat) : Nat → Nat :=
  fun o => if o < len then src o else dst o

/-- Observable result of dco_new_key: the descriptor built, the offsets
read from each of the four caller buffers (CopyMemory reads exactly the
offsets below its length argument, whatever the actual buffer size), the
ASSERT and driver outcomes, and the return value. -/
structure NewKeyResult where
  crypto_data : OVPN_CRYPTO_DATA
  encKeyReads : List Nat
  encIvReads : List Nat
  decKeyReads : List Nat
  decIvReads : List Nat
  assertFailed : Bool
  driverCalled : Bool
  fatalDriver : Bool
  ret : Int

/-- dco_new_key (dco_win.c lines 262 to 303).  The four caller buffers are
raw pointers in C and are modelled as byte contents indexed by offset; the
function has no argument describing their sizes.  It zero-initializes the
descriptor, fills cipher code, key id, peer id and slot, copies exactly
key_len = cipher_kt_key_size(ciphername) key bytes and nonce_len nonce
bytes per direction (the KeyLen field goes through a cast to char, hence
the reduction modulo 256), asserts that the cipher code is positive, and
submits the descriptor; a driver failure is reported through msg(M_ERR),
which is fatal. -/
def dco_new_key (peerid : Nat) (keyid : Int) (slot : Nat)
    (encrypt_key encrypt_iv decrypt_key decrypt_iv : Nat → Nat)
    (ciphername : String) (driverOk : Bool) : NewKeyResult :=
  let key_len := cipher_kt_key_size ciphername
  let cd0 := zeroCryptoData
  let cd : OVPN_CRYPTO_DATA :=
    { CipherAlg := dco_get_cipher ciphername
      KeyId := keyid
      PeerId := peerid
      KeySlot := slot
      Encrypt :=
        { Key := copyMemory cd0.Encrypt.Key encrypt_key key_len
          KeyLen := key_len % 256
          NonceTail := copyMemory cd0.Encrypt.NonceTail encrypt_iv nonce_len }
      Decrypt :=
        { Key := copyMemory cd0.Decrypt.Key decrypt_key key_len
          KeyLen := key_len % 256
          NonceTail := copyMemory cd0.Decrypt.NonceTail decrypt_iv nonce_len } }
  if cd.CipherAlg ≤ 0 then
    { crypto_data := cd, encKeyReads := List.range key_len,
      encIvReads := List.range nonce_len, decKeyReads := List.range key_len,
      decIvReads := List.range nonce_len, assertFailed := true,
      driverCalled := false, fatalDriver := false, ret := -1 }
  else if driverOk then
    { crypto_data := cd, encKeyReads := List.range key_len,
      encIvReads := List.range nonce_len, decKeyReads := List.range key_len,
      decIvReads := List.range nonce_len, assertFailed := false,
      driverCalled := true, fatalDriver := false, ret := 0 }
  else
    { crypto_data := cd, encKeyReads := List.range key_len,
      encIvReads := List.range nonce_len, decKeyReads := List.range key_len,
      decIvReads := List.range nonce_len, assertFailed := false,
      driverCalled := true, fatalDriver := true, ret := -1 }

/-- The keepalive parameter descriptor built by ovpn_set_peer.  Only these
two fields exist in the payload the function fills. -/
structure OVPN_SET_PEER where
  KeepaliveInterval : Nat
  KeepaliveTimeout : Nat
  deriving DecidableEq, Repr

/-- The control requests dco_win.c can submit over the device handle. -/
inductive DriverCall
  | startVpn
  | newPeer (peer : OVPN_NEW_PEER)
  | setPeer (params : OVPN_SET_PEER)
  | newKey (data : OVPN_CRYPTO_DATA)
  | swapKeys
  | delKey

/-- Observable result of a simple synchronous control operation: the
driver requests issued, the return value, whether a warning-level message
was logged, and whether the message level was fatal (M_ERR aborts the
process, M_WARN does not). -/
structure OpResult where
  calls : List DriverCall
  ret : Int
  warned : Bool
  fatalAborted : Bool

/-- ovpn_set_peer (dco_win.c lines 240 to 260): builds the two-field
descriptor from its arguments unchanged and submits it synchronously; a
driver failure logs at M_WARN, a warning level, and returns -1. -/
def ovpn_set_peer (_peerid : Nat) (keepalive_interval keepalive_timeout : Nat)
    (driverOk : Bool) : OpResult :=
  let peer : OVPN_SET_PEER :=
    { KeepaliveInterval := keepalive_interval, KeepaliveTimeout := keepalive_timeout }
  if driverOk then
    { calls := [.setPeer peer], ret := 0, warned := false, fatalAborted := false }
  else
    { calls := [.setPeer peer], ret := -1, warned := true, fatalAborted := false }

/-- dco_swap_keys (dco_win.c lines 313 to 326): issues a single
OVPN_IOCTL_SWAP_KEYS request with a NULL, zero-length payload; a driver
failure is reported through msg(M_ERR), which is fatal. -/
def dco_swap_keys (_peer_id : Nat) (driverOk : Bool) : OpResult :=
  if driverOk then
    { calls := [.swapKeys], ret := 0, warned := false, fatalAborted := false }
  else
    { calls := [.swapKeys], ret := -1, warned := false, fatalAborted := true }

/-- Modelled from the spec: the driver-held installed key material, which
only install-key requests replace (swap-keys toggles the active slot and
delete-key is currently ignored by the driver, neither alters the
installed material). -/
def driverKeyStep (keys : List OVPN_CRYPTO_DATA) : DriverCall → List OVPN_CRYPTO_DATA
  | .newKey d => d :: keys
  | _ => keys

end DcoWin

namespace DcoWin

theorem connect_wait_loop_all_pending (env : WaitEnv)
    (hres : ∀ j, env.result j = false)
    (herr : ∀ j, env.err j = WAIT_TIMEOUT ∨ env.err j = ERROR_IO_INCOMPLETE)
    (hsig : ∀ j, env.sig j = 0) :
    ∀ n i flag, connect_wait_loop env flag i n =
      { outcome := .errTimeout, iters := i + n, flag := SIGUSR1 } := by
  intro n
  induction n with
  | zero => intro i flag; simp [connect_wait_loop]
  | succ n ih =>
    intro i flag
    simp only [connect_wait_loop, hres i, hsig i, if_pos (herr i)]
    simp only [ne_eq, not_true_eq_false, if_false, Bool.false_eq_true, ite_false]
    rw [ih (i + 1) 0]
    simp only [WaitResult.mk.injEq, and_true, true_and]
    omega

end DcoWin

namespace DcoWin

theorem connect_wait_loop_cancelled (env : WaitEnv) :
    ∀ k n i flag, k < n →
      (∀ j, j ≤ k → env.result (i + j) = false) →
      (∀ j, j ≤ k → env.err (i + j) = WAIT_TIMEOUT ∨ env.err (i + j) = ERROR_IO_INCOMPLETE) →
      (∀ j, j < k → env.sig (i + j) = 0) →
      env.sig (i + k) ≠ 0 →
      connect_wait_loop env flag i n =
        { outcome := .errCancelled, iters := i + k + 1, flag := env.sig (i + k) } := by
  intro k
  induction k with
  | zero =>
    intro n i flag hkn hres herr _ hset
    obtain ⟨m, rfl⟩ : ∃ m, n = m + 1 := ⟨n - 1, by omega⟩
    have h1 : env.result i = false := by simpa using hres 0 (Nat.le_refl 0)
    have h2 : env.err i = WAIT_TIMEOUT ∨ env.err i = ERROR_IO_INCOMPLETE := by
      simpa using herr 0 (Nat.le_refl 0)
    simp only [Nat.add_zero] at hset
    simp only [connect_wait_loop, h1, Bool.false_eq_true, if_false]
    rw [if_pos h2, if_pos hset]
    simp
  | succ k ih =>
    intro n i flag hkn hres herr hsig hset
    obtain ⟨m, rfl⟩ : ∃ m, n = m + 1 := ⟨n - 1, by omega⟩
    have h1 : env.result i = false := by simpa using hres 0 (Nat.zero_le _)
    have h2 : env.err i = WAIT_TIMEOUT ∨ env.err i = ERROR_IO_INCOMPLETE := by
      simpa using herr 0 (Nat.zero_le _)
    have h3 : env.sig i = 0 := by simpa using hsig 0 (Nat.succ_pos k)
    simp only [connect_wait_loop, h1, Bool.false_eq_true, if_false]
    rw [if_pos h2, if_neg (by simp [h3])]
    have e1 : i + (k + 1) = i + 1 + k := by omega
    rw [show i + (k + 1) + 1 = i + 1 + k + 1 by omega, e1]
    refine ih m (i + 1) 0 (by omega) ?_ ?_ ?_ ?_
    · intro j hj
      have h := hres (j + 1) (by omega)
      rwa [show i + (j + 1) = i + 1 + j by omega] at h
    · intro j hj
      have h := herr (j + 1) (by omega)
      rwa [show i + (j + 1) = i + 1 + j by omega] at h
    · intro j hj
      have h := hsig (j + 1) (by omega)
      rwa [show i + (j + 1) = i + 1 + j by omega] at h
    · rwa [e1] at hset

theorem connect_wait_loop_driver_error (env : WaitEnv) :
    ∀ k n i flag, k < n →
      (∀ j, j ≤ k → env.result (i + j) = false) →
      (∀ j, j < k → env.err (i + j) = WAIT_TIMEOUT ∨ env.err (i + j) = ERROR_IO_INCOMPLETE) →
      (∀ j, j < k → env.sig (i + j) = 0) →
      env.err (i + k) ≠ WAIT_TIMEOUT →
      env.err (i + k) ≠ ERROR_IO_INCOMPLETE →
      connect_wait_loop env flag i n =
        { outcome := .errDriver (env.err (i + k)), iters := i + k + 1, flag := SIGUSR1 } := by
  intro k
  induction k with
  | zero =>
    intro n i flag hkn hres _ _ hwt hii
    obtain ⟨m, rfl⟩ : ∃ m, n = m + 1 := ⟨n - 1, by omega⟩
    have h1 : env.result i = false := by simpa using hres 0 (Nat.le_refl 0)
    simp only [Nat.add_zero] at hwt hii
    simp only [connect_wait_loop, h1, Bool.false_eq_true, if_false]
    rw [if_neg (by tauto)]
    simp
  | succ k ih =>
    intro n i flag hkn hres herr hsig hwt hii
    obtain ⟨m, rfl⟩ : ∃ m, n = m + 1 := ⟨n - 1, by omega⟩
    have h1 : env.result i = false := by simpa using hres 0 (Nat.zero_le _)
    have h2 : env.err i = WAIT_TIMEOUT ∨ env.err i = ERROR_IO_INCOMPLETE := by
      simpa using herr 0 (Nat.succ_pos k)
    have h3 : env.sig i = 0 := by simpa using hsig 0 (Nat.succ_pos k)
    simp only [connect_wait_loop, h1, Bool.false_eq_true, if_false]
    rw [if_pos h2, if_neg (by simp [h3])]
    have e1 : i + (k + 1) = i + 1 + k := by omega
    rw [show i + (k + 1) + 1 = i + 1 + k + 1 by omega, e1]
    refine ih m (i + 1) 0 (by omega) ?_ ?_ ?_ ?_ ?_
    · intro j hj
      have h := hres (j + 1) (by omega)
      rwa [show i + (j + 1) = i + 1 + j by omega] at h
    · intro j hj
      have h := herr (j + 1) (by omega)
      rwa [show i + (j + 1) = i + 1 + j by omega] at h
    · intro j hj
      have h := hsig (j + 1) (by omega)
      rwa [show i + (j + 1) = i + 1 + j by omega] at h
    · rwa [e1] at hwt
    · rwa [e1] at hii

end DcoWin

namespace DcoWin

theorem build_peer_ok (remoteaddr : Addrinfo) (bind_local : Bool) (bind : List Addrinfo)
    (hfam : remoteaddr.ai_addr.sa_family = AF_INET ∨ remoteaddr.ai_addr.sa_family = AF_INET6)
    (hbind : bind_local = true → (find_local bind remoteaddr.ai_addr.sa_family).isSome = true) :
    ∃ p, build_peer remoteaddr bind_local bind = .ok p := by
  cases bind_local with
  | false =>
    rcases hfam with h | h <;>
      simp [build_peer, h, AF_INET, AF_INET6]
  | true =>
    have hs := hbind rfl
    obtain ⟨l, hl⟩ := Option.isSome_iff_exists.mp hs
    rcases hfam with h | h
    · rw [h] at hl
      simp only [AF_INET] at hl
      simp [build_peer, h, hl, AF_INET, AF_INET6]
    · rw [h] at hl
      simp only [AF_INET6] at hl
      simp [build_peer, h, hl, AF_INET, AF_INET6]

theorem find_local_eq_find (bind : List Addrinfo) (fam : Nat) :
    find_local bind fam
      = Option.map Addrinfo.ai_addr (List.find? (fun c => c.ai_family == fam) bind) := by
  induction bind with
  | nil => rfl
  | cons a rest ih =>
    by_cases h : a.ai_family = fam
    · simp [find_local, h]
    · simp [find_local, h, ih]

end DcoWin

namespace DcoWin

theorem dco_new_key_crypto_data (peerid : Nat) (keyid : Int) (slot : Nat)
    (encrypt_key encrypt_iv decrypt_key decrypt_iv : Nat → Nat)
    (ciphername : String) (driverOk : Bool) :
    (dco_new_key peerid keyid slot encrypt_key encrypt_iv decrypt_key decrypt_iv
        ciphername driverOk).crypto_data =
      { CipherAlg := dco_get_cipher ciphername
        KeyId := keyid
        PeerId := peerid
        KeySlot := slot
        Encrypt :=
          { Key := copyMemory (fun _ => 0) encrypt_key (cipher_kt_key_size ciphername)
            KeyLen := cipher_kt_key_size ciphername % 256
            NonceTail := copyMemory (fun _ => 0) encrypt_iv nonce_len }
        Decrypt :=
          { Key := copyMemory (fun _ => 0) decrypt_key (cipher_kt_key_size ciphername)
            KeyLen := cipher_kt_key_size ciphername % 256
            NonceTail := copyMemory (fun _ => 0) decrypt_iv nonce_len } } := by
  simp only [dco_new_key]
  split <;> first | rfl | (split <;> rfl)

/-- C1: For every non-negative whole-second timeout t (with t * 1000 inside
the signed 32-bit range the source computes it in) and a pending new-peer
request that never completes, is never cancelled and never reports a
driver error, connect performs exactly t * 1000 / 50 poll iterations, then
sets the cancellation flag to SIGUSR1, returns a timeout error, and
releases the device handle exactly once, so the returned handle is no
longer open. -/
theorem C1_connect_timeout (remoteaddr : Addrinfo) (bind_local : Bool)
    (bind : List Addrinfo) (t : Nat) (flag0 : Int) (env : WaitEnv)
    (hfam : remoteaddr.ai_addr.sa_family = AF_INET ∨ remoteaddr.ai_addr.sa_family = AF_INET6)
    (hbind : bind_local = true → (find_local bind remoteaddr.ai_addr.sa_family).isSome = true)
    (ht : t * 1000 < 2147483648)
    (hres : ∀ j, env.result j = false)
    (herr : ∀ j, env.err j = WAIT_TIMEOUT ∨ env.err j = ERROR_IO_INCOMPLETE)
    (hsig : ∀ j, env.sig j = 0) :
    (dco_create_socket remoteaddr bind_local bind t flag0 false ERROR_IO_PENDING
        env).iterations = t * 1000 / 50 ∧
    (dco_create_socket remoteaddr bind_local bind t flag0 false ERROR_IO_PENDING
        env).finalSignal = SIGUSR1 ∧
    (dco_create_socket remoteaddr bind_local bind t flag0 false ERROR_IO_PENDING
        env).outcome = some .errTimeout ∧
    (dco_create_socket remoteaddr bind_local bind t flag0 false ERROR_IO_PENDING
        env).closeCount = 1 ∧
    (dco_create_socket remoteaddr bind_local bind t flag0 false ERROR_IO_PENDING
        env).handleReturnedOpen = false := by
  obtain ⟨p, hp⟩ := build_peer_ok remoteaddr bind_local bind hfam hbind
  have hw : dco_connect_wait env flag0 t =
      { outcome := .errTimeout, iters := t * 1000 / 50, flag := SIGUSR1 } := by
    unfold dco_connect_wait
    rw [Nat.mod_eq_of_lt (by omega),
      connect_wait_loop_all_pending env hres herr hsig (t * 1000 / poll_interval_ms) 0 flag0]
    simp [poll_interval_ms]
  simp [dco_create_socket, hp, hw]

end DcoWin

namespace DcoWin

/-- C4: During a pending wait with budget remaining, if the externally
owned cancellation flag becomes set (get_signal reads a nonzero value at
iteration k, after the still-pending wait of that iteration), connect
returns a cancellation error within that same poll iteration (k + 1 waits
in total), leaves the flag at the externally set value, and releases the
device handle. -/
theorem C4_cancellation_within_one_poll (remoteaddr : Addrinfo) (bind_local : Bool)
    (bind : List Addrinfo) (t : Nat) (flag0 : Int) (env : WaitEnv) (k : Nat)
    (hfam : remoteaddr.ai_addr.sa_family = AF_INET ∨ remoteaddr.ai_addr.sa_family = AF_INET6)
    (hbind : bind_local = true → (find_local bind remoteaddr.ai_addr.sa_family).isSome = true)
    (ht : t * 1000 < 2147483648)
    (hk : k < t * 1000 / 50)
    (hres : ∀ j, j ≤ k → env.result j = false)
    (herr : ∀ j, j ≤ k → env.err j = WAIT_TIMEOUT ∨ env.err j = ERROR_IO_INCOMPLETE)
    (hsig : ∀ j, j < k → env.sig j = 0)
    (hset : env.sig k ≠ 0) :
    (dco_create_socket remoteaddr bind_local bind t flag0 false ERROR_IO_PENDING
        env).outcome = some .errCancelled ∧
    (dco_create_socket remoteaddr bind_local bind t flag0 false ERROR_IO_PENDING
        env).iterations = k + 1 ∧
    (dco_create_socket remoteaddr bind_local bind t flag0 false ERROR_IO_PENDING
        env).finalSignal = env.sig k ∧
    (dco_create_socket remoteaddr bind_local bind t flag0 false ERROR_IO_PENDING
        env).closeCount = 1 ∧
    (dco_create_socket remoteaddr bind_local bind t flag0 false ERROR_IO_PENDING
        env).handleReturnedOpen = false := by
  obtain ⟨p, hp⟩ := build_peer_ok remoteaddr bind_local bind hfam hbind
  have hw : dco_connect_wait env flag0 t =
      { outcome := .errCancelled, iters := k + 1, flag := env.sig k } := by
    unfold dco_connect_wait
    rw [Nat.mod_eq_of_lt (by omega)]
    have := connect_wait_loop_cancelled env k (t * 1000 / poll_interval_ms) 0 flag0
      (by simpa [poll_interval_ms] using hk)
      (fun j hj => by simpa using hres j hj)
      (fun j hj => by simpa using herr j hj)
      (fun j hj => by simpa using hsig j hj)
      (by simpa using hset)
    simpa using this
  simp [dco_create_socket, hp, hw]

/-- C5: In the wait loop the outcomes wait-timed-out (WAIT_TIMEOUT) and
I/O-incomplete (ERROR_IO_INCOMPLETE) are never treated as errors: such an
iteration with no signal pending just continues the loop with one less
pass of budget.  Any other GetLastError value at the first divergent
iteration k makes connect set the cancellation flag to SIGUSR1, release
the handle, and return the driver-error connect failure after k + 1
waits. -/
theorem C5_transient_versus_error (remoteaddr : Addrinfo) (bind_local : Bool)
    (bind : List Addrinfo) (t : Nat) (flag0 : Int) (env : WaitEnv) (k : Nat)
    (hfam : remoteaddr.ai_addr.sa_family = AF_INET ∨ remoteaddr.ai_addr.sa_family = AF_INET6)
    (hbind : bind_local = true → (find_local bind remoteaddr.ai_addr.sa_family).isSome = true)
    (ht : t * 1000 < 2147483648)
    (hk : k < t * 1000 / 50)
    (hres : ∀ j, j ≤ k → env.result j = false)
    (herr : ∀ j, j < k → env.err j = WAIT_TIMEOUT ∨ env.err j = ERROR_IO_INCOMPLETE)
    (hsig : ∀ j, j < k → env.sig j = 0)
    (hwt : env.err k ≠ WAIT_TIMEOUT)
    (hii : env.err k ≠ ERROR_IO_INCOMPLETE) :
    (∀ (env2 : WaitEnv) (i n : Nat) (flag : Int),
        env2.result i = false →
        (env2.err i = WAIT_TIMEOUT ∨ env2.err i = ERROR_IO_INCOMPLETE) →
        env2.sig i = 0 →
        connect_wait_loop env2 flag i (n + 1) = connect_wait_loop env2 0 (i + 1) n) ∧
    (dco_create_socket remoteaddr bind_local bind t flag0 false ERROR_IO_PENDING
        env).outcome = some (.errDriver (env.err k)) ∧
    (dco_create_socket remoteaddr bind_local bind t flag0 false ERROR_IO_PENDING
        env).iterations = k + 1 ∧
    (dco_create_socket remoteaddr bind_local bind t flag0 false ERROR_IO_PENDING
        env).finalSignal = SIGUSR1 ∧
    (dco_create_socket remoteaddr bind_local bind t flag0 false ERROR_IO_PENDING
        env).closeCount = 1 ∧
    (dco_create_socket remoteaddr bind_local bind t flag0 false ERROR_IO_PENDING
        env).handleReturnedOpen = false := by
  constructor
  · intro env2 i n flag h1 h2 h3
    simp only [connect_wait_loop, h1, Bool.false_eq_true, if_false]
    rw [if_pos h2, if_neg (by simp [h3])]
  obtain ⟨p, hp⟩ := build_peer_ok remoteaddr bind_local bind hfam hbind
  have hw : dco_connect_wait env flag0 t =
      { outcome := .errDriver (env.err k), iters := k + 1, flag := SIGUSR1 } := by
    unfold dco_connect_wait
    rw [Nat.mod_eq_of_lt (by omega)]
    have := connect_wait_loop_driver_error env k (t * 1000 / poll_interval_ms) 0 flag0
      (by simpa [poll_interval_ms] using hk)
      (fun j hj => by simpa using hres j hj)
      (fun j hj => by simpa using herr j hj)
      (fun j hj => by simpa using hsig j hj)
      (by simpa using hwt)
      (by simpa using hii)
    simpa using this
  simp [dco_create_socket, hp, hw]

/-- C6: A new-peer submission that completes synchronously with success
makes connect return the open handle with zero poll iterations: the wait
loop is not entered, the result does not depend on the wait environment in
any way (the cancellation flag is never read), and the final flag value is
the unchanged caller value (it is never written); the handle is not
released. -/
theorem C6_synchronous_success (remoteaddr : Addrinfo) (bind_local : Bool)
    (bind : List Addrinfo) (t : Nat) (flag0 : Int) (syncErr : Nat) (env env2 : WaitEnv)
    (hfam : remoteaddr.ai_addr.sa_family = AF_INET ∨ remoteaddr.ai_addr.sa_family = AF_INET6)
    (hbind : bind_local = true → (find_local bind remoteaddr.ai_addr.sa_family).isSome = true) :
    dco_create_socket remoteaddr bind_local bind t flag0 true syncErr env
      = dco_create_socket remoteaddr bind_local bind t flag0 true syncErr env2 ∧
    (dco_create_socket remoteaddr bind_local bind t flag0 true syncErr env).waitEntered = false ∧
    (dco_create_socket remoteaddr bind_local bind t flag0 true syncErr env).iterations = 0 ∧
    (dco_create_socket remoteaddr bind_local bind t flag0 true syncErr env).finalSignal = flag0 ∧
    (dco_create_socket remoteaddr bind_local bind t flag0 true syncErr env).outcome = none ∧
    (dco_create_socket remoteaddr bind_local bind t flag0 true syncErr env).closeCount = 0 ∧
    (dco_create_socket remoteaddr bind_local bind t flag0 true syncErr
        env).handleReturnedOpen = true := by
  obtain ⟨p, hp⟩ := build_peer_ok remoteaddr bind_local bind hfam hbind
  simp [dco_create_socket, hp]

end DcoWin

namespace DcoWin

/-- C3 (amended): the handle accounting of connect.  No path releases the
device handle more than once.  A synchronous success keeps the handle open
and releases nothing.  A synchronous new-peer failure with a code other
than operation-pending takes the fatal M_ERR abort without releasing the
handle (close_tun_handle is not reached on that path).  Every
asynchronous failure path, that is every wait outcome other than success
(timeout, cancellation, wait-reported driver error), releases the handle
exactly once before returning, and a wait that completes successfully
releases nothing and keeps the handle open. -/
theorem C3_handle_accounting (remoteaddr : Addrinfo) (bind_local : Bool)
    (bind : List Addrinfo) (t : Nat) (flag0 : Int) (syncOk : Bool) (syncErr : Nat)
    (env : WaitEnv)
    (hfam : remoteaddr.ai_addr.sa_family = AF_INET ∨ remoteaddr.ai_addr.sa_family = AF_INET6)
    (hbind : bind_local = true → (find_local bind remoteaddr.ai_addr.sa_family).isSome = true) :
    (dco_create_socket remoteaddr bind_local bind t flag0 syncOk syncErr env).closeCount ≤ 1 ∧
    (syncOk = true →
      (dco_create_socket remoteaddr bind_local bind t flag0 syncOk syncErr env).closeCount = 0 ∧
      (dco_create_socket remoteaddr bind_local bind t flag0 syncOk syncErr
          env).handleReturnedOpen = true) ∧
    (syncOk = false → syncErr ≠ ERROR_IO_PENDING →
      (dco_create_socket remoteaddr bind_local bind t flag0 syncOk syncErr env).fatal
          = some (.newPeerSyncFail syncErr) ∧
      (dco_create_socket remoteaddr bind_local bind t flag0 syncOk syncErr env).closeCount = 0 ∧
      (dco_create_socket remoteaddr bind_local bind t flag0 syncOk syncErr
          env).handleReturnedOpen = false) ∧
    (∀ o, (dco_create_socket remoteaddr bind_local bind t flag0 syncOk syncErr env).outcome
          = some o → o ≠ .success →
      (dco_create_socket remoteaddr bind_local bind t flag0 syncOk syncErr env).closeCount = 1 ∧
      (dco_create_socket remoteaddr bind_local bind t flag0 syncOk syncErr
          env).handleReturnedOpen = false) ∧
    ((dco_create_socket remoteaddr bind_local bind t flag0 syncOk syncErr env).outcome
          = some .success →
      (dco_create_socket remoteaddr bind_local bind t flag0 syncOk syncErr env).closeCount = 0 ∧
      (dco_create_socket remoteaddr bind_local bind t flag0 syncOk syncErr
          env).handleReturnedOpen = true) := by
  obtain ⟨p, hp⟩ := build_peer_ok remoteaddr bind_local bind hfam hbind
  cases syncOk with
  | true => simp [dco_create_socket, hp]
  | false =>
    by_cases hpend : syncErr = ERROR_IO_PENDING
    · by_cases hsucc : (dco_connect_wait env flag0 t).outcome = .success
      · simp [dco_create_socket, hp, hpend, hsucc]
      · simp only [dco_create_socket, hp, hpend]
        simp [hsucc]
    · simp [dco_create_socket, hp, hpend]

/-- C7: Local endpoint selection.  The candidate scan is exactly the first
list entry whose ai_family equals the remote family; when binding is
requested and such a candidate exists, the populated local variant of the
descriptor is that candidate address; when binding is requested and no
candidate matches, construction fails with the fatal configuration error
naming the missing family, before the handle is created and before any
driver call; when binding is not requested, the populated local variant is
the wildcard endpoint: any address (0), port 0, tagged with the remote
family. -/
theorem C7_local_endpoint_selection (remoteaddr : Addrinfo) (bind_local : Bool)
    (bind : List Addrinfo) (t : Nat) (flag0 : Int) (syncOk : Bool) (syncErr : Nat)
    (env : WaitEnv) :
    (find_local bind remoteaddr.ai_addr.sa_family
      = Option.map Addrinfo.ai_addr
          (List.find? (fun c => c.ai_family == remoteaddr.ai_addr.sa_family) bind)) ∧
    (∀ cand p, bind_local = true →
      find_local bind remoteaddr.ai_addr.sa_family = some cand →
      build_peer remoteaddr bind_local bind = .ok p →
      (remoteaddr.ai_addr.sa_family = AF_INET → p.LocalAddr4 = toAddrIn cand) ∧
      (remoteaddr.ai_addr.sa_family = AF_INET6 → p.LocalAddr6 = toAddrIn6 cand)) ∧
    (bind_local = true → find_local bind remoteaddr.ai_addr.sa_family = none →
      build_peer remoteaddr bind_local bind
          = .error (.bindNoFamily remoteaddr.ai_addr.sa_family) ∧
      (dco_create_socket remoteaddr bind_local bind t flag0 syncOk syncErr
          env).handleCreated = false ∧
      (dco_create_socket remoteaddr bind_local bind t flag0 syncOk syncErr
          env).newPeerCalled = false) ∧
    (bind_local = false → ∀ p, build_peer remoteaddr bind_local bind = .ok p →
      (remoteaddr.ai_addr.sa_family = AF_INET →
        p.LocalAddr4 = { sin_family := AF_INET, sin_port := 0, sin_addr := 0 }) ∧
      (remoteaddr.ai_addr.sa_family = AF_INET6 →
        p.LocalAddr6 = { sin6_family := AF_INET6, sin6_port := 0, sin6_flowinfo := 0,
                         sin6_addr := 0, sin6_scope_id := 0 })) := by
  refine ⟨find_local_eq_find bind remoteaddr.ai_addr.sa_family, ?_, ?_, ?_⟩
  · intro cand p hb hfound hok
    subst hb
    constructor
    · intro h4
      rw [h4] at hfound
      simp only [AF_INET] at hfound
      simp [build_peer, h4, hfound, AF_INET, AF_INET6] at hok
      subst hok
      rfl
    · intro h6
      rw [h6] at hfound
      simp only [AF_INET6] at hfound
      simp [build_peer, h6, hfound, AF_INET, AF_INET6] at hok
      subst hok
      rfl
  · intro hb hnone
    subst hb
    have hbp : build_peer remoteaddr true bind
        = .error (.bindNoFamily remoteaddr.ai_addr.sa_family) := by
      simp [build_peer, hnone]
    exact ⟨hbp, by simp [dco_create_socket, hbp], by simp [dco_create_socket, hbp]⟩
  · intro hb p hok
    subst hb
    constructor
    · intro h4
      simp [build_peer, h4, AF_INET, AF_INET6] at hok
      subst hok
      rfl
    · intro h6
      simp [build_peer, h6, AF_INET, AF_INET6] at hok
      subst hok
      rfl

end DcoWin

namespace DcoWin

/-- C2 (amended): dco_new_key performs no validation of the caller buffer
sizes (its C signature has no size arguments at all): whatever the actual
buffer lengths, it reads and copies exactly cipher_kt_key_size(ciphername)
key bytes per direction, at offsets 0 up to that size minus one (hence
past the end of any shorter buffer), it reports no key-length-mismatch
error, and whenever the cipher resolves to a positive driver code it
issues the driver call. -/
theorem C2_no_buffer_length_validation (peerid : Nat) (keyid : Int) (slot : Nat)
    (encrypt_key encrypt_iv decrypt_key decrypt_iv : Nat → Nat)
    (ciphername : String) (driverOk : Bool) :
    (dco_new_key peerid keyid slot encrypt_key encrypt_iv decrypt_key decrypt_iv
        ciphername driverOk).encKeyReads = List.range (cipher_kt_key_size ciphername) ∧
    (dco_new_key peerid keyid slot encrypt_key encrypt_iv decrypt_key decrypt_iv
        ciphername driverOk).decKeyReads = List.range (cipher_kt_key_size ciphername) ∧
    (dco_new_key peerid keyid slot encrypt_key encrypt_iv decrypt_key decrypt_iv
        ciphername driverOk).crypto_data.Encrypt.Key
      = (fun o => if o < cipher_kt_key_size ciphername then encrypt_key o else 0) ∧
    (dco_new_key peerid keyid slot encrypt_key encrypt_iv decrypt_key decrypt_iv
        ciphername driverOk).crypto_data.Decrypt.Key
      = (fun o => if o < cipher_kt_key_size ciphername then decrypt_key o else 0) ∧
    (0 < dco_get_cipher ciphername →
      (dco_new_key peerid keyid slot encrypt_key encrypt_iv decrypt_key decrypt_iv
          ciphername driverOk).driverCalled = true ∧
      (dco_new_key peerid keyid slot encrypt_key encrypt_iv decrypt_key decrypt_iv
          ciphername driverOk).assertFailed = false) := by
  have hcd := dco_new_key_crypto_data peerid keyid slot encrypt_key encrypt_iv
    decrypt_key decrypt_iv ciphername driverOk
  refine ⟨?_, ?_, ?_, ?_, ?_⟩
  · simp only [dco_new_key]
    split <;> first | rfl | (split <;> rfl)
  · simp only [dco_new_key]
    split <;> first | rfl | (split <;> rfl)
  · rw [hcd]
    rfl
  · rw [hcd]
    rfl
  · intro hpos
    have hne : ¬ dco_get_cipher ciphername ≤ 0 := by omega
    cases driverOk with
    | true => simp [dco_new_key, hne]
    | false => simp [dco_new_key, hne]

/-- C2 counterexample: the scenario of the claim, cipher AES-256-GCM with
a 16-byte encrypt key buffer (valid offsets 0 to 15).  The claim requires
that no byte beyond offset 15 is read, that a fatal key-length-mismatch
error is reported and that no driver call is issued; the code instead
reads offset 16 (and up to 31) from the buffer, raises no error of any
kind, and issues the driver call. -/
theorem C2_counterexample :
    16 ∈ (dco_new_key 1 0 0 (fun o => o % 256) (fun _ => 0) (fun o => o % 256) (fun _ => 0)
        "AES-256-GCM" true).encKeyReads ∧
    31 ∈ (dco_new_key 1 0 0 (fun o => o % 256) (fun _ => 0) (fun o => o % 256) (fun _ => 0)
        "AES-256-GCM" true).encKeyReads ∧
    (dco_new_key 1 0 0 (fun o => o % 256) (fun _ => 0) (fun o => o % 256) (fun _ => 0)
        "AES-256-GCM" true).driverCalled = true ∧
    (dco_new_key 1 0 0 (fun o => o % 256) (fun _ => 0) (fun o => o % 256) (fun _ => 0)
        "AES-256-GCM" true).assertFailed = false ∧
    (dco_new_key 1 0 0 (fun o => o % 256) (fun _ => 0) (fun o => o % 256) (fun _ => 0)
        "AES-256-GCM" true).fatalDriver = false ∧
    (dco_new_key 1 0 0 (fun o => o % 256) (fun _ => 0) (fun o => o % 256) (fun _ => 0)
        "AES-256-GCM" true).ret = 0 := by
  refine ⟨by decide, by decide, rfl, rfl, rfl, rfl⟩

/-- C8: ovpn_set_peer submits the keepalive interval and timeout values
unchanged in the two-field descriptor (a zero timeout is passed as-is); on
driver failure it logs at warning level, does not abort, and returns -1;
and the only request it issues is the set-peer request, so folding the
driver key-material state over its calls leaves previously installed key
material unchanged. -/
theorem C8_set_peer_keepalive (peerid : Nat) (keepalive_interval keepalive_timeout : Nat)
    (driverOk : Bool) (keys : List OVPN_CRYPTO_DATA) :
    (ovpn_set_peer peerid keepalive_interval keepalive_timeout driverOk).calls
      = [DriverCall.setPeer { KeepaliveInterval := keepalive_interval,
                              KeepaliveTimeout := keepalive_timeout }] ∧
    (ovpn_set_peer peerid keepalive_interval 0 driverOk).calls
      = [DriverCall.setPeer { KeepaliveInterval := keepalive_interval,
                              KeepaliveTimeout := 0 }] ∧
    (ovpn_set_peer peerid keepalive_interval keepalive_timeout driverOk).ret
      = (if driverOk then 0 else -1) ∧
    (ovpn_set_peer peerid keepalive_interval keepalive_timeout driverOk).fatalAborted = false ∧
    (ovpn_set_peer peerid keepalive_interval keepalive_timeout driverOk).warned = !driverOk ∧
    List.foldl driverKeyStep keys
        (ovpn_set_peer peerid keepalive_interval keepalive_timeout driverOk).calls = keys := by
  cases driverOk <;> simp [ovpn_set_peer, driverKeyStep]

/-- C9: dco_swap_keys issues exactly one swap-active-slot request whose
payload is empty (the constructor carries no data; the peer is implied by
the handle, and indeed the result does not depend on the peer id
argument); two sequential calls are independent, each result being the
same function of only its own driver response, and neither call changes
the driver-held installed key material. -/
theorem C9_swap_keys (peer_id other_id : Nat) (driverOk ok1 ok2 : Bool)
    (keys : List OVPN_CRYPTO_DATA) :
    (dco_swap_keys peer_id driverOk).calls = [DriverCall.swapKeys] ∧
    dco_swap_keys peer_id driverOk = dco_swap_keys other_id driverOk ∧
    (dco_swap_keys peer_id ok1).ret = (if ok1 then 0 else -1) ∧
    (dco_swap_keys peer_id ok2).ret = (if ok2 then 0 else -1) ∧
    (dco_swap_keys peer_id ok2).fatalAborted = !ok2 ∧
    List.foldl driverKeyStep keys
        ((dco_swap_keys peer_id ok1).calls ++ (dco_swap_keys peer_id ok2).calls) = keys := by
  cases driverOk <;> cases ok1 <;> cases ok2 <;> simp [dco_swap_keys, driverKeyStep]

/-- C10: Both driver descriptors built by this file start fully zeroed
and keep every part that is not explicitly assigned at zero: in the peer
descriptor the whole unpopulated address-family variant stays zero (for an
IPv4 remote both IPv6 legs, for an IPv6 remote both IPv4 legs), and in the
key-slot descriptor every key byte at an offset at or beyond the cipher
key size and every nonce byte at or beyond the 8-byte tail stays zero. -/
theorem C10_descriptor_unset_bytes_zero (remoteaddr : Addrinfo) (bind_local : Bool)
    (bind : List Addrinfo) (p : OVPN_NEW_PEER) (peerid : Nat) (keyid : Int) (slot : Nat)
    (encrypt_key encrypt_iv decrypt_key decrypt_iv : Nat → Nat)
    (ciphername : String) (driverOk : Bool) (o : Nat)
    (hp : build_peer remoteaddr bind_local bind = .ok p) :
    (remoteaddr.ai_addr.sa_family = AF_INET → p.RemoteAddr6 = {} ∧ p.LocalAddr6 = {}) ∧
    (remoteaddr.ai_addr.sa_family = AF_INET6 → p.RemoteAddr4 = {} ∧ p.LocalAddr4 = {}) ∧
    (cipher_kt_key_size ciphername ≤ o →
      (dco_new_key peerid keyid slot encrypt_key encrypt_iv decrypt_key decrypt_iv
          ciphername driverOk).crypto_data.Encrypt.Key o = 0 ∧
      (dco_new_key peerid keyid slot encrypt_key encrypt_iv decrypt_key decrypt_iv
          ciphername driverOk).crypto_data.Decrypt.Key o = 0) ∧
    (nonce_len ≤ o →
      (dco_new_key peerid keyid slot encrypt_key encrypt_iv decrypt_key decrypt_iv
          ciphername driverOk).crypto_data.Encrypt.NonceTail o = 0 ∧
      (dco_new_key peerid keyid slot encrypt_key encrypt_iv decrypt_key decrypt_iv
          ciphername driverOk).crypto_data.Decrypt.NonceTail o = 0) := by
  have hcd := dco_new_key_crypto_data peerid keyid slot encrypt_key encrypt_iv
    decrypt_key decrypt_iv ciphername driverOk
  refine ⟨?_, ?_, ?_, ?_⟩
  · intro h4
    cases bind_local with
    | false =>
      simp [build_peer, h4, AF_INET, AF_INET6] at hp
      subst hp
      exact ⟨rfl, rfl⟩
    | true =>
      simp [build_peer, h4, AF_INET, AF_INET6] at hp
      split at hp
      · exact absurd hp (by simp)
      · rw [Except.ok.injEq] at hp
        subst hp
        exact ⟨rfl, rfl⟩
  · intro h6
    cases bind_local with
    | false =>
      simp [build_peer, h6, AF_INET, AF_INET6] at hp
      subst hp
      exact ⟨rfl, rfl⟩
    | true =>
      simp [build_peer, h6, AF_INET, AF_INET6] at hp
      split at hp
      · exact absurd hp (by simp)
      · rw [Except.ok.injEq] at hp
        subst hp
        exact ⟨rfl, rfl⟩
  · intro ho
    rw [hcd]
    simp [copyMemory, Nat.not_lt.mpr ho]
  · intro ho
    rw [hcd]
    simp [copyMemory, Nat.not_lt.mpr ho]

end DcoWin

namespace DcoWin

/-- C3 counterexample: a synchronous NEW_PEER failure with code 31 (a code
other than ERROR_IO_PENDING).  The claim requires every non-success path
of connect to release the handle exactly once before returning the error;
on this path the code takes the fatal M_ERR abort with the handle created
but never released (release count 0). -/
theorem C3_counterexample :
    (dco_create_socket ⟨2, 2, 17, ⟨2, 1194, 3405803781, 0, 0⟩⟩ false [] 1 0 false 31
        ⟨fun _ => false, fun _ => 258, fun _ => 0⟩).fatal = some (.newPeerSyncFail 31) ∧
    (dco_create_socket ⟨2, 2, 17, ⟨2, 1194, 3405803781, 0, 0⟩⟩ false [] 1 0 false 31
        ⟨fun _ => false, fun _ => 258, fun _ => 0⟩).handleCreated = true ∧
    (dco_create_socket ⟨2, 2, 17, ⟨2, 1194, 3405803781, 0, 0⟩⟩ false [] 1 0 false 31
        ⟨fun _ => false, fun _ => 258, fun _ => 0⟩).closeCount = 0 ∧
    (dco_create_socket ⟨2, 2, 17, ⟨2, 1194, 3405803781, 0, 0⟩⟩ false [] 1 0 false 31
        ⟨fun _ => false, fun _ => 258, fun _ => 0⟩).handleReturnedOpen = false :=
  ⟨rfl, rfl, rfl, rfl⟩

/-- Witness for C1: remote 203.0.113.5:1194 over UDP, timeout 1 second, an
always-pending driver and no signal; connect runs 20 iterations and times
out with the handle released. -/
theorem C1_witness :
    (dco_create_socket ⟨2, 2, 17, ⟨2, 1194, 3405803781, 0, 0⟩⟩ false [] 1 0 false
        ERROR_IO_PENDING ⟨fun _ => false, fun _ => 258, fun _ => 0⟩).iterations
      = 1 * 1000 / 50 ∧
    (dco_create_socket ⟨2, 2, 17, ⟨2, 1194, 3405803781, 0, 0⟩⟩ false [] 1 0 false
        ERROR_IO_PENDING ⟨fun _ => false, fun _ => 258, fun _ => 0⟩).finalSignal = SIGUSR1 ∧
    (dco_create_socket ⟨2, 2, 17, ⟨2, 1194, 3405803781, 0, 0⟩⟩ false [] 1 0 false
        ERROR_IO_PENDING ⟨fun _ => false, fun _ => 258, fun _ => 0⟩).outcome
      = some .errTimeout ∧
    (dco_create_socket ⟨2, 2, 17, ⟨2, 1194, 3405803781, 0, 0⟩⟩ false [] 1 0 false
        ERROR_IO_PENDING ⟨fun _ => false, fun _ => 258, fun _ => 0⟩).closeCount = 1 ∧
    (dco_create_socket ⟨2, 2, 17, ⟨2, 1194, 3405803781, 0, 0⟩⟩ false [] 1 0 false
        ERROR_IO_PENDING ⟨fun _ => false, fun _ => 258, fun _ => 0⟩).handleReturnedOpen
      = false :=
  C1_connect_timeout ⟨2, 2, 17, ⟨2, 1194, 3405803781, 0, 0⟩⟩ false [] 1 0
    ⟨fun _ => false, fun _ => 258, fun _ => 0⟩ (Or.inl rfl) (by simp) (by norm_num)
    (fun _ => rfl) (fun _ => Or.inl rfl) (fun _ => rfl)

/-- Witness for C3: applying the handle-accounting theorem at the
counterexample input (synchronous failure 31) and, through the same
statement, at all other branch inputs of that configuration. -/
theorem C3_witness :
    (dco_create_socket ⟨2, 2, 17, ⟨2, 1194, 3405803781, 0, 0⟩⟩ false [] 1 0 false 31
        ⟨fun _ => false, fun _ => 258, fun _ => 0⟩).closeCount ≤ 1 ∧
    (false = true →
      (dco_create_socket ⟨2, 2, 17, ⟨2, 1194, 3405803781, 0, 0⟩⟩ false [] 1 0 false 31
          ⟨fun _ => false, fun _ => 258, fun _ => 0⟩).closeCount = 0 ∧
      (dco_create_socket ⟨2, 2, 17, ⟨2, 1194, 3405803781, 0, 0⟩⟩ false [] 1 0 false 31
          ⟨fun _ => false, fun _ => 258, fun _ => 0⟩).handleReturnedOpen = true) ∧
    (false = false → (31 : Nat) ≠ ERROR_IO_PENDING →
      (dco_create_socket ⟨2, 2, 17, ⟨2, 1194, 3405803781, 0, 0⟩⟩ false [] 1 0 false 31
          ⟨fun _ => false, fun _ => 258, fun _ => 0⟩).fatal = some (.newPeerSyncFail 31) ∧
      (dco_create_socket ⟨2, 2, 17, ⟨2, 1194, 3405803781, 0, 0⟩⟩ false [] 1 0 false 31
          ⟨fun _ => false, fun _ => 258, fun _ => 0⟩).closeCount = 0 ∧
      (dco_create_socket ⟨2, 2, 17, ⟨2, 1194, 3405803781, 0, 0⟩⟩ false [] 1 0 false 31
          ⟨fun _ => false, fun _ => 258, fun _ => 0⟩).handleReturnedOpen = false) ∧
    (∀ o, (dco_create_socket ⟨2, 2, 17, ⟨2, 1194, 3405803781, 0, 0⟩⟩ false [] 1 0 false 31
          ⟨fun _ => false, fun _ => 258, fun _ => 0⟩).outcome = some o → o ≠ .success →
      (dco_create_socket ⟨2, 2, 17, ⟨2, 1194, 3405803781, 0, 0⟩⟩ false [] 1 0 false 31
          ⟨fun _ => false, fun _ => 258, fun _ => 0⟩).closeCount = 1 ∧
      (dco_create_socket ⟨2, 2, 17, ⟨2, 1194, 3405803781, 0, 0⟩⟩ false [] 1 0 false 31
          ⟨fun _ => false, fun _ => 258, fun _ => 0⟩).handleReturnedOpen = false) ∧
    ((dco_create_socket ⟨2, 2, 17, ⟨2, 1194, 3405803781, 0, 0⟩⟩ false [] 1 0 false 31
          ⟨fun _ => false, fun _ => 258, fun _ => 0⟩).outcome = some .success →
      (dco_create_socket ⟨2, 2, 17, ⟨2, 1194, 3405803781, 0, 0⟩⟩ false [] 1 0 false 31
          ⟨fun _ => false, fun _ => 258, fun _ => 0⟩).closeCount = 0 ∧
      (dco_create_socket ⟨2, 2, 17, ⟨2, 1194, 3405803781, 0, 0⟩⟩ false [] 1 0 false 31
          ⟨fun _ => false, fun _ => 258, fun _ => 0⟩).handleReturnedOpen = true) :=
  C3_handle_accounting ⟨2, 2, 17, ⟨2, 1194, 3405803781, 0, 0⟩⟩ false [] 1 0 false 31
    ⟨fun _ => false, fun _ => 258, fun _ => 0⟩ (Or.inl rfl) (by simp)

/-- Witness for C4: timeout 1 second, waits pending throughout, the signal
becomes 15 (SIGTERM) at iteration 2; connect cancels after 3 waits with
the external value left in the flag and the handle released. -/
theorem C4_witness :
    (dco_create_socket ⟨2, 2, 17, ⟨2, 1194, 3405803781, 0, 0⟩⟩ false [] 1 0 false
        ERROR_IO_PENDING
        ⟨fun _ => false, fun _ => 258, fun j => if j = 2 then 15 else 0⟩).outcome
      = some .errCancelled ∧
    (dco_create_socket ⟨2, 2, 17, ⟨2, 1194, 3405803781, 0, 0⟩⟩ false [] 1 0 false
        ERROR_IO_PENDING
        ⟨fun _ => false, fun _ => 258, fun j => if j = 2 then 15 else 0⟩).iterations = 2 + 1 ∧
    (dco_create_socket ⟨2, 2, 17, ⟨2, 1194, 3405803781, 0, 0⟩⟩ false [] 1 0 false
        ERROR_IO_PENDING
        ⟨fun _ => false, fun _ => 258, fun j => if j = 2 then 15 else 0⟩).finalSignal = 15 ∧
    (dco_create_socket ⟨2, 2, 17, ⟨2, 1194, 3405803781, 0, 0⟩⟩ false [] 1 0 false
        ERROR_IO_PENDING
        ⟨fun _ => false, fun _ => 258, fun j => if j = 2 then 15 else 0⟩).closeCount = 1 ∧
    (dco_create_socket ⟨2, 2, 17, ⟨2, 1194, 3405803781, 0, 0⟩⟩ false [] 1 0 false
        ERROR_IO_PENDING
        ⟨fun _ => false, fun _ => 258, fun j => if j = 2 then 15 else 0⟩).handleReturnedOpen
      = false :=
  C4_cancellation_within_one_poll ⟨2, 2, 17, ⟨2, 1194, 3405803781, 0, 0⟩⟩ false [] 1 0
    ⟨fun _ => false, fun _ => 258, fun j => if j = 2 then 15 else 0⟩ 2 (Or.inl rfl)
    (by simp) (by norm_num) (by norm_num) (fun _ _ => rfl) (fun _ _ => Or.inl rfl)
    (fun j hj => by
      show (if j = 2 then (15 : Int) else 0) = 0
      rw [if_neg (by omega)]) (by decide)

/-- Witness for C5: waits pending with WAIT_TIMEOUT for iterations 0 to 2,
then GetLastError 31 at iteration 3; connect reports the driver error
after 4 waits, sets SIGUSR1 and releases the handle. -/
theorem C5_witness :
    (dco_create_socket ⟨2, 2, 17, ⟨2, 1194, 3405803781, 0, 0⟩⟩ false [] 1 0 false
        ERROR_IO_PENDING
        ⟨fun _ => false, fun j => if j = 3 then 31 else 258, fun _ => 0⟩).outcome
      = some (.errDriver 31) ∧
    (dco_create_socket ⟨2, 2, 17, ⟨2, 1194, 3405803781, 0, 0⟩⟩ false [] 1 0 false
        ERROR_IO_PENDING
        ⟨fun _ => false, fun j => if j = 3 then 31 else 258, fun _ => 0⟩).iterations
      = 3 + 1 ∧
    (dco_create_socket ⟨2, 2, 17, ⟨2, 1194, 3405803781, 0, 0⟩⟩ false [] 1 0 false
        ERROR_IO_PENDING
        ⟨fun _ => false, fun j => if j = 3 then 31 else 258, fun _ => 0⟩).finalSignal
      = SIGUSR1 ∧
    (dco_create_socket ⟨2, 2, 17, ⟨2, 1194, 3405803781, 0, 0⟩⟩ false [] 1 0 false
        ERROR_IO_PENDING
        ⟨fun _ => false, fun j => if j = 3 then 31 else 258, fun _ => 0⟩).closeCount = 1 ∧
    (dco_create_socket ⟨2, 2, 17, ⟨2, 1194, 3405803781, 0, 0⟩⟩ false [] 1 0 false
        ERROR_IO_PENDING
        ⟨fun _ => false, fun j => if j = 3 then 31 else 258, fun _ => 0⟩).handleReturnedOpen
      = false :=
  (C5_transient_versus_error ⟨2, 2, 17, ⟨2, 1194, 3405803781, 0, 0⟩⟩ false [] 1 0
    ⟨fun _ => false, fun j => if j = 3 then 31 else 258, fun _ => 0⟩ 3 (Or.inl rfl)
    (by simp) (by norm_num) (by norm_num) (fun _ _ => rfl)
    (fun j hj => Or.inl (by
      show (if j = 3 then 31 else 258) = WAIT_TIMEOUT
      rw [if_neg (by omega)]
      rfl)) (fun _ _ => rfl)
    (by decide) (by decide)).2

/-- Witness for C6: synchronous success with two different wait
environments; the results coincide, no iteration runs, the flag keeps the
caller value 7 and the handle stays open. -/
theorem C6_witness :
    dco_create_socket ⟨2, 2, 17, ⟨2, 1194, 3405803781, 0, 0⟩⟩ false [] 5 7 true 0
        ⟨fun _ => false, fun _ => 258, fun _ => 0⟩
      = dco_create_socket ⟨2, 2, 17, ⟨2, 1194, 3405803781, 0, 0⟩⟩ false [] 5 7 true 0
        ⟨fun _ => true, fun _ => 0, fun _ => 9⟩ ∧
    (dco_create_socket ⟨2, 2, 17, ⟨2, 1194, 3405803781, 0, 0⟩⟩ false [] 5 7 true 0
        ⟨fun _ => false, fun _ => 258, fun _ => 0⟩).waitEntered = false ∧
    (dco_create_socket ⟨2, 2, 17, ⟨2, 1194, 3405803781, 0, 0⟩⟩ false [] 5 7 true 0
        ⟨fun _ => false, fun _ => 258, fun _ => 0⟩).iterations = 0 ∧
    (dco_create_socket ⟨2, 2, 17, ⟨2, 1194, 3405803781, 0, 0⟩⟩ false [] 5 7 true 0
        ⟨fun _ => false, fun _ => 258, fun _ => 0⟩).finalSignal = 7 ∧
    (dco_create_socket ⟨2, 2, 17, ⟨2, 1194, 3405803781, 0, 0⟩⟩ false [] 5 7 true 0
        ⟨fun _ => false, fun _ => 258, fun _ => 0⟩).outcome = none ∧
    (dco_create_socket ⟨2, 2, 17, ⟨2, 1194, 3405803781, 0, 0⟩⟩ false [] 5 7 true 0
        ⟨fun _ => false, fun _ => 258, fun _ => 0⟩).closeCount = 0 ∧
    (dco_create_socket ⟨2, 2, 17, ⟨2, 1194, 3405803781, 0, 0⟩⟩ false [] 5 7 true 0
        ⟨fun _ => false, fun _ => 258, fun _ => 0⟩).handleReturnedOpen = true :=
  C6_synchronous_success ⟨2, 2, 17, ⟨2, 1194, 3405803781, 0, 0⟩⟩ false [] 5 7 0
    ⟨fun _ => false, fun _ => 258, fun _ => 0⟩ ⟨fun _ => true, fun _ => 0, fun _ => 9⟩
    (Or.inl rfl) (by simp)

end DcoWin

namespace DcoWin

/-- Witness for C2: the amended statement applied at the scenario input,
cipher AES-256-GCM with driver success. -/
theorem C2_witness :
    (dco_new_key 1 0 0 (fun o => o % 256) (fun _ => 0) (fun o => o % 256) (fun _ => 0)
        "AES-256-GCM" true).encKeyReads = List.range (cipher_kt_key_size "AES-256-GCM") ∧
    (dco_new_key 1 0 0 (fun o => o % 256) (fun _ => 0) (fun o => o % 256) (fun _ => 0)
        "AES-256-GCM" true).decKeyReads = List.range (cipher_kt_key_size "AES-256-GCM") ∧
    (dco_new_key 1 0 0 (fun o => o % 256) (fun _ => 0) (fun o => o % 256) (fun _ => 0)
        "AES-256-GCM" true).crypto_data.Encrypt.Key
      = (fun o => if o < cipher_kt_key_size "AES-256-GCM" then (fun o => o % 256) o else 0) ∧
    (dco_new_key 1 0 0 (fun o => o % 256) (fun _ => 0) (fun o => o % 256) (fun _ => 0)
        "AES-256-GCM" true).crypto_data.Decrypt.Key
      = (fun o => if o < cipher_kt_key_size "AES-256-GCM" then (fun o => o % 256) o else 0) ∧
    (0 < dco_get_cipher "AES-256-GCM" →
      (dco_new_key 1 0 0 (fun o => o % 256) (fun _ => 0) (fun o => o % 256) (fun _ => 0)
          "AES-256-GCM" true).driverCalled = true ∧
      (dco_new_key 1 0 0 (fun o => o % 256) (fun _ => 0) (fun o => o % 256) (fun _ => 0)
          "AES-256-GCM" true).assertFailed = false) :=
  C2_no_buffer_length_validation 1 0 0 (fun o => o % 256) (fun _ => 0) (fun o => o % 256)
    (fun _ => 0) "AES-256-GCM" true

/-- Witness for C7: IPv4 remote with binding requested against a candidate
list holding an IPv6 entry first and an IPv4 entry second. -/
theorem C7_witness :
    (find_local ([⟨23, 2, 17, ⟨23, 0, 7, 0, 0⟩⟩, ⟨2, 2, 17, ⟨2, 5353, 167772161, 0, 0⟩⟩] :
          List Addrinfo)
        (⟨2, 2, 17, ⟨2, 1194, 3405803781, 0, 0⟩⟩ : Addrinfo).ai_addr.sa_family
      = Option.map Addrinfo.ai_addr
          (List.find?
            (fun c => c.ai_family
              == (⟨2, 2, 17, ⟨2, 1194, 3405803781, 0, 0⟩⟩ : Addrinfo).ai_addr.sa_family)
            ([⟨23, 2, 17, ⟨23, 0, 7, 0, 0⟩⟩, ⟨2, 2, 17, ⟨2, 5353, 167772161, 0, 0⟩⟩] :
              List Addrinfo))) ∧
    (∀ cand p, true = true →
      find_local ([⟨23, 2, 17, ⟨23, 0, 7, 0, 0⟩⟩, ⟨2, 2, 17, ⟨2, 5353, 167772161, 0, 0⟩⟩] :
            List Addrinfo)
          (⟨2, 2, 17, ⟨2, 1194, 3405803781, 0, 0⟩⟩ : Addrinfo).ai_addr.sa_family = some cand →
      build_peer (⟨2, 2, 17, ⟨2, 1194, 3405803781, 0, 0⟩⟩ : Addrinfo) true
          ([⟨23, 2, 17, ⟨23, 0, 7, 0, 0⟩⟩, ⟨2, 2, 17, ⟨2, 5353, 167772161, 0, 0⟩⟩] :
            List Addrinfo) = .ok p →
      ((⟨2, 2, 17, ⟨2, 1194, 3405803781, 0, 0⟩⟩ : Addrinfo).ai_addr.sa_family = AF_INET →
        p.LocalAddr4 = toAddrIn cand) ∧
      ((⟨2, 2, 17, ⟨2, 1194, 3405803781, 0, 0⟩⟩ : Addrinfo).ai_addr.sa_family = AF_INET6 →
        p.LocalAddr6 = toAddrIn6 cand)) ∧
    (true = true →
      find_local ([⟨23, 2, 17, ⟨23, 0, 7, 0, 0⟩⟩, ⟨2, 2, 17, ⟨2, 5353, 167772161, 0, 0⟩⟩] :
            List Addrinfo)
          (⟨2, 2, 17, ⟨2, 1194, 3405803781, 0, 0⟩⟩ : Addrinfo).ai_addr.sa_family = none →
      build_peer (⟨2, 2, 17, ⟨2, 1194, 3405803781, 0, 0⟩⟩ : Addrinfo) true
          ([⟨23, 2, 17, ⟨23, 0, 7, 0, 0⟩⟩, ⟨2, 2, 17, ⟨2, 5353, 167772161, 0, 0⟩⟩] :
            List Addrinfo)
        = .error (.bindNoFamily
            (⟨2, 2, 17, ⟨2, 1194, 3405803781, 0, 0⟩⟩ : Addrinfo).ai_addr.sa_family) ∧
      (dco_create_socket (⟨2, 2, 17, ⟨2, 1194, 3405803781, 0, 0⟩⟩ : Addrinfo) true
          ([⟨23, 2, 17, ⟨23, 0, 7, 0, 0⟩⟩, ⟨2, 2, 17, ⟨2, 5353, 167772161, 0, 0⟩⟩] :
            List Addrinfo) 5 0 true 0
          ⟨fun _ => false, fun _ => 258, fun _ => 0⟩).handleCreated = false ∧
      (dco_create_socket (⟨2, 2, 17, ⟨2, 1194, 3405803781, 0, 0⟩⟩ : Addrinfo) true
          ([⟨23, 2, 17, ⟨23, 0, 7, 0, 0⟩⟩, ⟨2, 2, 17, ⟨2, 5353, 167772161, 0, 0⟩⟩] :
            List Addrinfo) 5 0 true 0
          ⟨fun _ => false, fun _ => 258, fun _ => 0⟩).newPeerCalled = false) ∧
    (true = false → ∀ p,
      build_peer (⟨2, 2, 17, ⟨2, 1194, 3405803781, 0, 0⟩⟩ : Addrinfo) true
          ([⟨23, 2, 17, ⟨23, 0, 7, 0, 0⟩⟩, ⟨2, 2, 17, ⟨2, 5353, 167772161, 0, 0⟩⟩] :
            List Addrinfo) = .ok p →
      ((⟨2, 2, 17, ⟨2, 1194, 3405803781, 0, 0⟩⟩ : Addrinfo).ai_addr.sa_family = AF_INET →
        p.LocalAddr4 = { sin_family := AF_INET, sin_port := 0, sin_addr := 0 }) ∧
      ((⟨2, 2, 17, ⟨2, 1194, 3405803781, 0, 0⟩⟩ : Addrinfo).ai_addr.sa_family = AF_INET6 →
        p.LocalAddr6 = { sin6_family := AF_INET6, sin6_port := 0, sin6_flowinfo := 0,
                         sin6_addr := 0, sin6_scope_id := 0 })) :=
  C7_local_endpoint_selection ⟨2, 2, 17, ⟨2, 1194, 3405803781, 0, 0⟩⟩ true
    [⟨23, 2, 17, ⟨23, 0, 7, 0, 0⟩⟩, ⟨2, 2, 17, ⟨2, 5353, 167772161, 0, 0⟩⟩] 5 0 true 0
    ⟨fun _ => false, fun _ => 258, fun _ => 0⟩

/-- Witness for C10: the zero-initialization statement applied to the
concrete IPv4 descriptor and to the AES-256-GCM key descriptor at offset
40, past both the 32-byte key and the 8-byte nonce tail. -/
theorem C10_witness :
    ((⟨2, 2, 17, ⟨2, 1194, 3405803781, 0, 0⟩⟩ : Addrinfo).ai_addr.sa_family = AF_INET →
      (⟨2, ⟨2, 1194, 3405803781⟩, ⟨0, 0, 0, 0, 0⟩, ⟨2, 0, 0⟩, ⟨0, 0, 0, 0, 0⟩⟩ :
          OVPN_NEW_PEER).RemoteAddr6 = {} ∧
      (⟨2, ⟨2, 1194, 3405803781⟩, ⟨0, 0, 0, 0, 0⟩, ⟨2, 0, 0⟩, ⟨0, 0, 0, 0, 0⟩⟩ :
          OVPN_NEW_PEER).LocalAddr6 = {}) ∧
    ((⟨2, 2, 17, ⟨2, 1194, 3405803781, 0, 0⟩⟩ : Addrinfo).ai_addr.sa_family = AF_INET6 →
      (⟨2, ⟨2, 1194, 3405803781⟩, ⟨0, 0, 0, 0, 0⟩, ⟨2, 0, 0⟩, ⟨0, 0, 0, 0, 0⟩⟩ :
          OVPN_NEW_PEER).RemoteAddr4 = {} ∧
      (⟨2, ⟨2, 1194, 3405803781⟩, ⟨0, 0, 0, 0, 0⟩, ⟨2, 0, 0⟩, ⟨0, 0, 0, 0, 0⟩⟩ :
          OVPN_NEW_PEER).LocalAddr4 = {}) ∧
    (cipher_kt_key_size "AES-256-GCM" ≤ 40 →
      (dco_new_key 1 0 0 (fun o => o % 256) (fun _ => 0) (fun o => o % 256) (fun _ => 0)
          "AES-256-GCM" true).crypto_data.Encrypt.Key 40 = 0 ∧
      (dco_new_key 1 0 0 (fun o => o % 256) (fun _ => 0) (fun o => o % 256) (fun _ => 0)
          "AES-256-GCM" true).crypto_data.Decrypt.Key 40 = 0) ∧
    (nonce_len ≤ 40 →
      (dco_new_key 1 0 0 (fun o => o % 256) (fun _ => 0) (fun o => o % 256) (fun _ => 0)
          "AES-256-GCM" true).crypto_data.Encrypt.NonceTail 40 = 0 ∧
      (dco_new_key 1 0 0 (fun o => o % 256) (fun _ => 0) (fun o => o % 256) (fun _ => 0)
          "AES-256-GCM" true).crypto_data.Decrypt.NonceTail 40 = 0) :=
  C10_descriptor_unset_bytes_zero ⟨2, 2, 17, ⟨2, 1194, 3405803781, 0, 0⟩⟩ false []
    ⟨2, ⟨2, 1194, 3405803781⟩, ⟨0, 0, 0, 0, 0⟩, ⟨2, 0, 0⟩, ⟨0, 0, 0, 0, 0⟩⟩ 1 0 0
    (fun o => o % 256) (fun _ => 0) (fun o => o % 256) (fun _ => 0) "AES-256-GCM" true 40 rfl

end DcoWin
